import Mathlib

/-!
Verification development for the Plugin Execution Engine of the MCP server
repository.  The definitions below are a shallow embedding of the
`PluginService` class (`src/services/pluginService.ts`), its `execute` /
`executeExternal` / `loadExternal` methods, and the `EventBus` it emits on
(`src/core/eventBus.ts`).  Effects are made explicit: emitted bus events and
spawned subprocesses are recorded in an outcome trace, and the behaviour of
the operating system / subprocess is an explicit `World` parameter.
-/

namespace PluginEngine

/-- JavaScript values crossing the engine boundary: the JSON-compatible
values (null, booleans, numbers, strings, arrays, objects) plus `undefined`
(`undefined`), which models an absent payload or an absent object field.
Numbers are modelled as integers; no claim depends on float behaviour. -/
inductive Json where
  | undefined : Json
  | null : Json
  | bool (b : Bool) : Json
  | num (n : Int) : Json
  | str (s : String) : Json
  | arr (elems : List Json) : Json
  | obj (fields : List (String × Json)) : Json

mutual
/-- Boolean equality on JSON values (the automatic derivation does not
handle this nested inductive, so it is written out). -/
def Json.beq : Json → Json → Bool
  | .undefined, .undefined => true
  | .null, .null => true
  | .bool a, .bool b => a == b
  | .num a, .num b => a == b
  | .str a, .str b => a == b
  | .arr xs, .arr ys => Json.beqList xs ys
  | .obj xs, .obj ys => Json.beqFields xs ys
  | _, _ => false

/-- Boolean equality on lists of JSON values. -/
def Json.beqList : List Json → List Json → Bool
  | [], [] => true
  | x :: xs, y :: ys => Json.beq x y && Json.beqList xs ys
  | _, _ => false

/-- Boolean equality on JSON object field lists. -/
def Json.beqFields : List (String × Json) → List (String × Json) → Bool
  | [], [] => true
  | (k, v) :: xs, (l, w) :: ys => k == l && Json.beq v w && Json.beqFields xs ys
  | _, _ => false
end

mutual
theorem Json.eq_of_beq : ∀ {a b : Json}, Json.beq a b = true → a = b
  | .undefined, .undefined, _ => rfl
  | .null, .null, _ => rfl
  | .bool _, .bool _, h => by
    simpa [Json.beq] using congrArg Json.bool (by simpa [Json.beq] using h)
  | .num _, .num _, h => by
    simpa using congrArg Json.num (by simpa [Json.beq] using h)
  | .str _, .str _, h => by
    simpa using congrArg Json.str (by simpa [Json.beq] using h)
  | .arr xs, .arr ys, h =>
    congrArg Json.arr (Json.eqList_of_beqList (by simpa [Json.beq] using h))
  | .obj xs, .obj ys, h =>
    congrArg Json.obj (Json.eqFields_of_beqFields (by simpa [Json.beq] using h))

theorem Json.eqList_of_beqList : ∀ {xs ys : List Json},
    Json.beqList xs ys = true → xs = ys
  | [], [], _ => rfl
  | x :: xs, y :: ys, h => by
    have h1 : Json.beq x y = true := by
      have := h; simp [Json.beqList] at this; exact this.1
    have h2 : Json.beqList xs ys = true := by
      have := h; simp [Json.beqList] at this; exact this.2
    rw [Json.eq_of_beq h1, Json.eqList_of_beqList h2]

theorem Json.eqFields_of_beqFields : ∀ {xs ys : List (String × Json)},
    Json.beqFields xs ys = true → xs = ys
  | [], [], _ => rfl
  | (k, v) :: xs, (l, w) :: ys, h => by
    have h0 : k = l := by
      have := h; simp [Json.beqFields] at this; exact this.1.1
    have h1 : Json.beq v w = true := by
      have := h; simp [Json.beqFields] at this; exact this.1.2
    have h2 : Json.beqFields xs ys = true := by
      have := h; simp [Json.beqFields] at this; exact this.2
    rw [h0, Json.eq_of_beq h1, Json.eqFields_of_beqFields h2]
end

mutual
theorem Json.beq_refl : ∀ a : Json, Json.beq a a = true
  | .undefined => rfl
  | .null => rfl
  | .bool b => by simp [Json.beq]
  | .num n => by simp [Json.beq]
  | .str s => by simp [Json.beq]
  | .arr xs => by simpa [Json.beq] using Json.beqList_refl xs
  | .obj fs => by simpa [Json.beq] using Json.beqFields_refl fs

theorem Json.beqList_refl : ∀ xs : List Json, Json.beqList xs xs = true
  | [] => rfl
  | x :: xs => by
    simp [Json.beqList, Json.beq_refl x, Json.beqList_refl xs]

theorem Json.beqFields_refl : ∀ xs : List (String × Json),
    Json.beqFields xs xs = true
  | [] => rfl
  | (k, v) :: xs => by
    simp [Json.beqFields, Json.beq_refl v, Json.beqFields_refl xs]
end

instance : DecidableEq Json := fun a b =>
  decidable_of_iff (Json.beq a b = true)
    ⟨fun h => Json.eq_of_beq h, fun h => h ▸ Json.beq_refl a⟩

/-- JavaScript truthiness of a value, as used by `payload || {}` and
`if (!fn)` in `pluginService.ts`: `undefined`, `null`, `false`, `0` and the
empty string are falsy, everything else (including `[]` and an empty object)
is truthy. -/
def jsTruthy : Json → Bool
  | .undefined => false
  | .null => false
  | .bool b => b
  | .num n => n != 0
  | .str s => s != ""
  | .arr _ => true
  | .obj _ => true

/-- The left brace character, written via its code point. -/
def lbrace : String := String.singleton (Char.ofNat 123)

/-- The right brace character, written via its code point. -/
def rbrace : String := String.singleton (Char.ofNat 125)

/-- String escaping for the JSON serializer: quotes and backslashes are
escaped.  (`JSON.stringify` also escapes control characters; no claim
exercises them.) -/
def escapeString (s : String) : String :=
  s.foldl
    (fun acc c =>
      if c = '"' ∨ c = '\\' then acc ++ String.singleton '\\' ++ String.singleton c
      else acc ++ String.singleton c)
    ""

/-- A JSON string literal: the escaped text surrounded by double quotes. -/
def quoteString (s : String) : String := "\"" ++ escapeString s ++ "\""

mutual
/-- Model of `JSON.stringify` on the value type of the engine.  `undefined` is mapped
to the text "undefined"; in the engine `stringify` is only ever applied
behind the `payload || {}` guard, so that branch is unreachable there. -/
def stringify : Json → String
  | .undefined => "undefined"
  | .null => "null"
  | .bool true => "true"
  | .bool false => "false"
  | .num n => toString n
  | .str s => quoteString s
  | .arr xs => "[" ++ stringifyArr xs ++ "]"
  | .obj fs => lbrace ++ stringifyObj fs ++ rbrace

/-- Comma-separated serialization of the elements of a JSON array. -/
def stringifyArr : List Json → String
  | [] => ""
  | [x] => stringify x
  | x :: xs => stringify x ++ "," ++ stringifyArr xs

/-- Comma-separated serialization of the fields of a JSON object. -/
def stringifyObj : List (String × Json) → String
  | [] => ""
  | [(k, v)] => quoteString k ++ ":" ++ stringify v
  | (k, v) :: fs => quoteString k ++ ":" ++ stringify v ++ "," ++ stringifyObj fs
end

/-- One external plugin descriptor, as declared in `src/types/index.js` and
used by `pluginService.ts`: a name, a command, optional args, optional
working directory (`cwd`). -/
structure ExternalPluginDescriptor where
  name : String
  command : String
  args : Option (List String)
  cwd : Option String
  deriving DecidableEq

/-- One event emitted on the `EventBus` (`src/core/eventBus.ts`).
`EventBus.emit(event, ...args)` hands the event name and the argument list
verbatim to every registered listener, so a recorded `BusEvent` is exactly
what each listener receives. -/
structure BusEvent where
  name : String
  args : List Json
  deriving DecidableEq

/-- The lifecycle event `pluginExecuted(pluginName, actionOrEventName)`
as emitted by `PluginService.execute`. -/
def executedEvent (pluginName actionOrEvent : String) : BusEvent :=
  ⟨"pluginExecuted", [.str pluginName, .str actionOrEvent]⟩

/-- One `spawn` call made by `executeExternal`: command, argv vector,
working directory, and whether shell interpretation is requested. -/
structure SpawnCall where
  command : String
  argv : List String
  cwd : String
  shell : Bool
  deriving DecidableEq

/-- JavaScript `a || b` on an optional string `a`: an absent value and the
empty string are falsy, so both fall back to `b`; any non-empty string
wins. -/
def jsOrElse (a : Option String) (b : String) : String :=
  match a with
  | some s => if s = "" then b else s
  | none => b

/-- The spawn call built by `executeExternal`:
`spawn(desc.command, [...(desc.args || []), JSON.stringify(payload || {})],
{ cwd: desc.cwd || process.cwd(), shell: false })`.
`processCwd` stands for `process.cwd()`; both `||` defaults follow JS
falsiness (for the cwd an empty string also falls back; for the args only
`undefined` can be falsy since an empty array is truthy). -/
def spawnCall (processCwd : String) (desc : ExternalPluginDescriptor)
    (payload : Json) : SpawnCall :=
  { command := desc.command
    argv := desc.args.getD [] ++
      [stringify (if jsTruthy payload then payload else .obj [])]
    cwd := jsOrElse desc.cwd processCwd
    shell := false }

/-- Model of `.trim()`: drop whitespace characters from both ends of the
string (written structurally over the character list so that it evaluates
inside proofs). -/
def jsTrim (s : String) : String :=
  String.mk (((s.toList.dropWhile Char.isWhitespace).reverse.dropWhile
    Char.isWhitespace).reverse)

/-- Outcome of one subprocess, as observed by the handlers of `executeExternal`:
either the `error` event fired (the OS could not start the process), or the
`close` event fired with an exit code (`none` models termination by signal,
where Node reports `code === null`) and the accumulated stdout and stderr. -/
inductive ProcOutcome where
  | spawnFailed (errMsg : String) : ProcOutcome
  | closed (exitCode : Option Int) (stdout stderr : String) : ProcOutcome
  deriving DecidableEq

/-- The behaviour of the operating system: what happens when a given spawn call
is made.  `execute` is parametric in it. -/
def World := SpawnCall → ProcOutcome

/-- Model of `PluginService.executeExternal`: build the spawn call, run it,
and interpret the outcome.  On exit code 0 the accumulated stdout is
trimmed and `JSON.parse`d, falling back to the trimmed raw string when
parsing fails; on any other close outcome the call is rejected with the
accumulated stderr, or "external plugin failed" when stderr is empty.
`parse` is the model of `JSON.parse` (`none` = a parse exception); the
spawn call made is returned alongside the result. -/
def executeExternal (parse : String → Option Json) (world : World)
    (processCwd : String) (desc : ExternalPluginDescriptor) (payload : Json) :
    Except String Json × SpawnCall :=
  let call := spawnCall processCwd desc payload
  match world call with
  | .spawnFailed m => (.error m, call)
  | .closed code out err =>
    if code = some 0 then
      let o := jsTrim out
      match parse o with
      | some j => (.ok j, call)
      | none => (.ok (.str o), call)
    else
      (.error (if err = "" then "external plugin failed" else err), call)

/-- Model of one in-process action callable `(payload, ctx) -> result`:
given the payload it performs a finite sequence of `ctx.emit(event, data)`
calls (recorded in order, with the data argument each call passed) and then
either returns a value or throws with a message. -/
def ActionFn := Json → List (String × Json) × Except String Json

/-- An in-process plugin: a name and a table of named actions
(`src/types/index.js`: `{ name, actions }`). -/
structure Plugin where
  name : String
  actions : List (String × ActionFn)

/-- The registry state of a `PluginService`: the in-process map `plugins`
and the external-descriptor map `externals`, both keyed by name. -/
structure PluginServiceState where
  plugins : List (String × Plugin)
  externals : List (String × ExternalPluginDescriptor)

instance : DecidableEq (Except String Json) := fun a b =>
  match a, b with
  | .ok x, .ok y =>
    if h : x = y then .isTrue (congrArg Except.ok h)
    else .isFalse (fun c => h (Except.ok.inj c))
  | .error x, .error y =>
    if h : x = y then .isTrue (congrArg Except.error h)
    else .isFalse (fun c => h (Except.error.inj c))
  | .ok _, .error _ => .isFalse (fun c => Except.noConfusion c)
  | .error _, .ok _ => .isFalse (fun c => Except.noConfusion c)

/-- The observable outcome of one `execute` call: the returned value or
thrown message, the bus events emitted during the call in order, and the
subprocess spawn calls made. -/
structure ExecOutcome where
  result : Except String Json
  events : List BusEvent
  spawns : List SpawnCall
  deriving DecidableEq

/-- Model of `PluginService.execute(pluginName, action, payload)`:
1. look up `pluginName` in the in-process map; if found, look up `action`
   in its action table (`throw` of "action not found" when absent), run the
   callable with a context whose `emit(event, data)` forwards
   ("pluginExecuted", pluginName, event) to the bus — the data argument
   is dropped — and on success emit `pluginExecuted(pluginName, action)`
   and return the result;
2. otherwise look up `pluginName` in the external map and delegate to
   `executeExternal` (note: the action name is not passed on, and no bus
   event is emitted on this path);
3. otherwise `throw` of "plugin not found". -/
def execute (parse : String → Option Json) (world : World) (processCwd : String)
    (svc : PluginServiceState) (pluginName action : String) (payload : Json) :
    ExecOutcome :=
  match svc.plugins.lookup pluginName with
  | some internal =>
    match internal.actions.lookup action with
    | none => ⟨.error "action not found", [], []⟩
    | some fn =>
      let r := fn payload
      let ctxEvents := r.1.map (fun ed => executedEvent pluginName ed.1)
      match r.2 with
      | .ok v => ⟨.ok v, ctxEvents ++ [executedEvent pluginName action], []⟩
      | .error m => ⟨.error m, ctxEvents, []⟩
  | none =>
    match svc.externals.lookup pluginName with
    | some desc =>
      let rc := executeExternal parse world processCwd desc payload
      ⟨rc.1, [], [rc.2]⟩
    | none => ⟨.error "plugin not found", [], []⟩

/-- Errors that can abort `loadExternal` after the manifest file was read:
`parseError` models `JSON.parse` throwing a `SyntaxError` on the raw text,
`typeError` models the runtime `TypeError` thrown by `for (const d of list)`
on a non-iterable parse result or by the `d.name` property access on a
`null`/`undefined` element. -/
inductive LoadError where
  | parseError : LoadError
  | typeError : LoadError
  deriving DecidableEq

/-- JavaScript iteration as performed by `for (const d of list)`: arrays
iterate their elements, strings iterate their characters (each a one-char
string); every other value is not iterable and the loop throws. -/
def jsIterate : Json → Option (List Json)
  | .arr xs => some xs
  | .str s => some (s.toList.map (fun c => .str (String.singleton c)))
  | _ => none

/-- JavaScript property access `d.name`: on an object it yields the field
or `undefined` when absent; on `null`/`undefined` it throws (`none`); on
any other value it yields `undefined`. -/
def jsGetName : Json → Option Json
  | .null => none
  | .undefined => none
  | .obj fields => some ((fields.lookup "name").getD .undefined)
  | _ => some .undefined

/-- Model of `PluginService.loadExternal`: a missing manifest file is a
no-op; otherwise the raw text is `JSON.parse`d — a parse failure propagates
out of loading uncaught — and the result is iterated twice with NO shape
validation (the TypeScript annotation `ExternalPluginDescriptor[]` is an
unchecked cast): first `this.externals.set(d.name, d)` for each element,
then `pluginLoaded` with `d.name` for each element in order.
The result is the list of (key, value) entries written to the external map
together with the emitted events. -/
def loadExternal (parse : String → Option Json) (manifest : Option String) :
    Except LoadError (List (Json × Json) × List BusEvent) :=
  match manifest with
  | none => .ok ([], [])
  | some raw =>
    match parse raw with
    | none => .error .parseError
    | some j =>
      match jsIterate j with
      | none => .error .typeError
      | some ds =>
        match ds.mapM (fun d => (jsGetName d).map (fun n => (n, d))) with
        | none => .error .typeError
        | some named =>
          .ok (named, named.map (fun nd => ⟨"pluginLoaded", [nd.1]⟩))

/-! Fixtures: concrete registries, worlds and parse functions used to
instantiate the theorems below on concrete inputs. -/

/-- A parse model that fails on every string (models `JSON.parse` throwing;
used where only non-JSON output is exercised). -/
def parseNone : String → Option Json := fun _ => none

/-- A parse model that agrees with `JSON.parse` on the one string the
load-time theorems consult: the text consisting of the five characters
left-bracket, 1, comma, 2, right-bracket parses to the array `[1, 2]`;
every other string is treated as unparseable. -/
def jsonParseFx : String → Option Json := fun s =>
  if s = "[1,2]" then some (.arr [.num 1, .num 2]) else none

/-- External descriptor fixture: command "runner" with one manifest arg. -/
def descA : ExternalPluginDescriptor := ⟨"ext", "runner", some ["a"], none⟩

/-- External descriptor fixture: no args, configured working directory. -/
def descB : ExternalPluginDescriptor := ⟨"fx", "run", none, some "/srv"⟩

/-- Registry holding only the external plugin "ext" (descriptor `descA`). -/
def svcExt : PluginServiceState := ⟨[], [("ext", descA)]⟩

/-- Registry holding only the external plugin "fx" (descriptor `descB`). -/
def svcFx : PluginServiceState := ⟨[], [("fx", descB)]⟩

/-- External descriptor fixture with a present but EMPTY working-directory
string (reachable, since the manifest is loaded without validation). -/
def descC : ExternalPluginDescriptor := ⟨"fy", "run2", none, some ""⟩

/-- Registry holding only the external plugin "fy" (descriptor `descC`). -/
def svcFy : PluginServiceState := ⟨[], [("fy", descC)]⟩

/-- The empty registry. -/
def svcEmpty : PluginServiceState := ⟨[], []⟩

/-- An action that returns its payload unchanged and emits nothing. -/
def echoFn : ActionFn := fun p => ([], .ok p)

/-- In-process plugin "echo" with the single action "echo" (`echoFn`). -/
def echoPlugin : Plugin := ⟨"echo", [("echo", echoFn)]⟩

/-- Registry holding only the in-process plugin "echo". -/
def svcEcho : PluginServiceState := ⟨[("echo", echoPlugin)], []⟩

/-- An action that calls `ctx.emit("foo", 7)` and then returns null. -/
def shoutFn : ActionFn := fun _ => ([("foo", .num 7)], .ok .null)

/-- In-process plugin "p" whose action "foo" is `shoutFn`. -/
def shoutPlugin : Plugin := ⟨"p", [("foo", shoutFn)]⟩

/-- Registry holding only the in-process plugin "p". -/
def svcShout : PluginServiceState := ⟨[("p", shoutPlugin)], []⟩

/-- A registry with one in-process plugin holding one action. -/
def svcOf (n a : String) (fn : ActionFn) : PluginServiceState :=
  ⟨[(n, ⟨n, [(a, fn)]⟩)], []⟩

/-- An action that emits event "x" with data 1. -/
def leakFn1 : ActionFn := fun _ => ([("x", .num 1)], .ok .null)

/-- An action that emits event "x" with the data string "secret". -/
def leakFn2 : ActionFn := fun _ => ([("x", .str "secret")], .ok .null)

/-- In-process plugin named "dup", used for the name-collision fixture. -/
def dupPlugin : Plugin := ⟨"dup", [("a", echoFn)]⟩

/-- External descriptor also named "dup". -/
def dupDesc : ExternalPluginDescriptor := ⟨"dup", "dupcmd", none, none⟩

/-- Registry where the name "dup" is registered in BOTH origins. -/
def svcBoth : PluginServiceState := ⟨[("dup", dupPlugin)], [("dup", dupDesc)]⟩

/-- A world in which every subprocess closes with exit code 0 and empty
stdout and stderr. -/
def worldExit0 : World := fun _ => .closed (some 0) "" ""

/-- A world in which every subprocess closes with exit code 0 printing
plain text "hello" (padded with whitespace) on stdout. -/
def worldHello : World := fun _ => .closed (some 0) "  hello " ""

/-- A world in which every subprocess closes with exit code 2 writing
"boom" to stderr. -/
def worldBoom : World := fun _ => .closed (some 2) "" "boom"

/-! Helper lemmas shared by the claim theorems. -/

/-- The spawn call recorded by `executeExternal` is `spawnCall` whatever
the world does. -/
theorem executeExternal_snd (parse : String → Option Json) (world : World)
    (processCwd : String) (desc : ExternalPluginDescriptor) (payload : Json) :
    (executeExternal parse world processCwd desc payload).2 =
      spawnCall processCwd desc payload := by
  unfold executeExternal
  dsimp only
  split
  · rfl
  · split
    · split <;> rfl
    · rfl

/-- On the external path, `execute` returns the result of `executeExternal`,
emits no event, and records exactly the one spawn call. -/
theorem execute_external_case (parse : String → Option Json) (world : World)
    (processCwd : String) (svc : PluginServiceState) (n a : String) (p : Json)
    (desc : ExternalPluginDescriptor)
    (hin : svc.plugins.lookup n = none)
    (hex : svc.externals.lookup n = some desc) :
    execute parse world processCwd svc n a p =
      ⟨(executeExternal parse world processCwd desc p).1, [],
        [spawnCall processCwd desc p]⟩ := by
  simp [execute, hin, hex, executeExternal_snd]

/-- On the in-process path, the outcome of `execute` as a function of the
emit list and result of the action. -/
theorem execute_internal_case (parse : String → Option Json) (world : World)
    (processCwd : String) (svc : PluginServiceState) (n a : String) (p : Json)
    (P : Plugin) (fn : ActionFn)
    (hP : svc.plugins.lookup n = some P)
    (hfn : P.actions.lookup a = some fn) :
    execute parse world processCwd svc n a p =
      (match (fn p).2 with
       | .ok v =>
         ⟨.ok v, (fn p).1.map (fun ed => executedEvent n ed.1) ++
           [executedEvent n a], []⟩
       | .error m =>
         ⟨.error m, (fn p).1.map (fun ed => executedEvent n ed.1), []⟩) := by
  simp [execute, hP, hfn]

/-! Claim theorems. -/

/-- C1, counterexample: for the external plugin "ext" with manifest args
["a"], `execute("ext", "doit", ...)` spawns the subprocess with argv
["a", "(serialized payload)"] — the action name "doit" is NOT inserted
between the manifest args and the payload, contrary to the claim. -/
theorem c1_counterexample :
    (execute parseNone worldExit0 "/w" svcExt "ext" "doit" (.obj [])).spawns.map
        SpawnCall.argv = [["a", stringify (.obj [])]] ∧
    (execute parseNone worldExit0 "/w" svcExt "ext" "doit" (.obj [])).spawns.map
        SpawnCall.argv ≠ [["a", "doit", stringify (.obj [])]] := by
  constructor
  · rfl
  · decide

/-- C1, amended: on the external path the action name is never passed to
the subprocess: the argv is the manifest-configured args followed by the
serialized payload only, and the whole outcome of `execute` is identical
for any two action names. -/
theorem c1_amended (parse : String → Option Json) (world : World)
    (processCwd : String) (svc : PluginServiceState) (n act1 act2 : String)
    (p : Json) (desc : ExternalPluginDescriptor)
    (hin : svc.plugins.lookup n = none)
    (hex : svc.externals.lookup n = some desc) :
    (execute parse world processCwd svc n act1 p).spawns.map SpawnCall.argv =
      [desc.args.getD [] ++
        [stringify (if jsTruthy p then p else .obj [])]] ∧
    execute parse world processCwd svc n act1 p =
      execute parse world processCwd svc n act2 p := by
  rw [execute_external_case parse world processCwd svc n act1 p desc hin hex,
    execute_external_case parse world processCwd svc n act2 p desc hin hex]
  exact ⟨rfl, rfl⟩

/-- C1, witness for the amended theorem at a concrete input. -/
theorem c1_amended_witness :
    (execute parseNone worldExit0 "/w" svcExt "ext" "go" (.num 3)).spawns.map
        SpawnCall.argv = [["a", stringify (.num 3)]] ∧
    execute parseNone worldExit0 "/w" svcExt "ext" "go" (.num 3) =
      execute parseNone worldExit0 "/w" svcExt "ext" "other" (.num 3) := by
  have h := c1_amended parseNone worldExit0 "/w" svcExt "ext" "go" "other"
    (.num 3) descA rfl rfl
  exact ⟨by simpa using h.1, h.2⟩

/-- C2, counterexample: an external invocation that succeeds (exit code 0,
result returned to the caller) emits NO `pluginExecuted` event at all,
contrary to the claim that every successful `execute` emits one. -/
theorem c2_counterexample :
    (execute parseNone worldExit0 "/w" svcExt "ext" "go" (.obj [])).result =
      .ok (.str "") ∧
    (execute parseNone worldExit0 "/w" svcExt "ext" "go" (.obj [])).events =
      [] := by
  constructor <;> rfl

/-- C2, amended: only a successful IN-PROCESS `execute` call emits
`pluginExecuted(pluginName, actionName)` — emitted after the
result of the action is known, following its own context emissions, as the
final event before the result is returned; on the external path no
`pluginExecuted` event is emitted at all. -/
theorem c2_amended (parse : String → Option Json) (world : World)
    (processCwd : String) (svc : PluginServiceState) (n a : String) (p : Json)
    (P : Plugin) (fn : ActionFn) (L : List (String × Json)) (v : Json)
    (desc : ExternalPluginDescriptor) :
    (svc.plugins.lookup n = some P → P.actions.lookup a = some fn →
      fn p = (L, .ok v) →
      execute parse world processCwd svc n a p =
        ⟨.ok v, L.map (fun ed => executedEvent n ed.1) ++
          [executedEvent n a], []⟩) ∧
    (svc.plugins.lookup n = none → svc.externals.lookup n = some desc →
      (execute parse world processCwd svc n a p).events = []) := by
  constructor
  · intro hP hfn hrun
    rw [execute_internal_case parse world processCwd svc n a p P fn hP hfn,
      hrun]
  · intro hin hex
    rw [execute_external_case parse world processCwd svc n a p desc hin hex]

/-- C2, witness: the in-process "echo" call emits exactly its lifecycle
event and returns the payload; the external "ext" call emits nothing. -/
theorem c2_amended_witness :
    execute parseNone worldExit0 "/w" svcEcho "echo" "echo" (.num 1) =
      ⟨.ok (.num 1), [executedEvent "echo" "echo"], []⟩ ∧
    (execute parseNone worldExit0 "/w" svcExt "ext" "go" (.num 1)).events =
      [] :=
  ⟨(c2_amended parseNone worldExit0 "/w" svcEcho "echo" "echo" (.num 1)
      echoPlugin echoFn [] (.num 1) descA).1 rfl rfl rfl,
   (c2_amended parseNone worldExit0 "/w" svcExt "ext" "go" (.num 1)
      echoPlugin echoFn [] (.num 1) descA).2 rfl rfl⟩

/-- C3: when the subprocess of an external invocation closes with exit
code 0, `execute` returns the accumulated stdout trimmed of surrounding
whitespace and decoded as JSON, falling back to the trimmed raw string
when JSON decoding fails. -/
theorem c3_exit_zero_decodes_stdout (parse : String → Option Json)
    (world : World) (processCwd : String) (svc : PluginServiceState)
    (n a : String) (p : Json) (desc : ExternalPluginDescriptor)
    (out err : String)
    (hin : svc.plugins.lookup n = none)
    (hex : svc.externals.lookup n = some desc)
    (hw : world (spawnCall processCwd desc p) = .closed (some 0) out err) :
    (execute parse world processCwd svc n a p).result =
      match parse (jsTrim out) with
      | some j => .ok j
      | none => .ok (.str (jsTrim out)) := by
  rw [execute_external_case parse world processCwd svc n a p desc hin hex]
  unfold executeExternal
  dsimp only
  rw [hw]
  simp only [reduceIte]
  cases parse (jsTrim out) <;> rfl

/-- C3, witness: a subprocess printing plain text "  hello " (not JSON)
and exiting 0 makes `execute` return the string "hello". -/
theorem c3_witness :
    (execute parseNone worldHello "/w" svcExt "ext" "go" (.obj [])).result =
      .ok (.str "hello") := by
  have h := c3_exit_zero_decodes_stdout parseNone worldHello "/w" svcExt
    "ext" "go" (.obj []) descA "  hello " "" rfl rfl rfl
  simpa using h

/-- C4: when the subprocess of an external invocation closes with a
nonzero exit code, `execute` fails with an error whose message is the
accumulated stderr, or "external plugin failed" when stderr is empty. -/
theorem c4_nonzero_exit_stderr (parse : String → Option Json) (world : World)
    (processCwd : String) (svc : PluginServiceState) (n a : String) (p : Json)
    (desc : ExternalPluginDescriptor) (c : Int) (out err : String)
    (hin : svc.plugins.lookup n = none)
    (hex : svc.externals.lookup n = some desc)
    (hw : world (spawnCall processCwd desc p) = .closed (some c) out err)
    (hc : c ≠ 0) :
    (execute parse world processCwd svc n a p).result =
      .error (if err = "" then "external plugin failed" else err) := by
  rw [execute_external_case parse world processCwd svc n a p desc hin hex]
  unfold executeExternal
  dsimp only
  rw [hw]
  simp [hc]

/-- C4, witness: a subprocess exiting with code 2 and stderr "boom" makes
`execute` fail with the message "boom". -/
theorem c4_witness :
    (execute parseNone worldBoom "/w" svcExt "ext" "go" (.obj [])).result =
      .error "boom" := by
  have h := c4_nonzero_exit_stderr parseNone worldBoom "/w" svcExt "ext" "go"
    (.obj []) descA 2 "" "boom" rfl rfl rfl (by decide)
  simpa using h

/-- C5: when a plugin name is registered in neither the in-process nor the
external map, `execute` fails with the message "plugin not found", emits
no event, and spawns no subprocess. -/
theorem c5_plugin_not_found (parse : String → Option Json) (world : World)
    (processCwd : String) (svc : PluginServiceState) (n a : String) (p : Json)
    (hin : svc.plugins.lookup n = none)
    (hex : svc.externals.lookup n = none) :
    execute parse world processCwd svc n a p =
      ⟨.error "plugin not found", [], []⟩ := by
  simp [execute, hin, hex]

/-- C5, witness: on the empty registry any call fails with
"plugin not found" and emits nothing. -/
theorem c5_witness :
    execute parseNone worldExit0 "/w" svcEmpty "nope" "x" .null =
      ⟨.error "plugin not found", [], []⟩ :=
  c5_plugin_not_found parseNone worldExit0 "/w" svcEmpty "nope" "x" .null
    rfl rfl

/-- C6: a name registered in both origins always dispatches in-process —
the outcome of `execute` does not depend on the external map at all when the
in-process lookup succeeds (so the collision shadows the external entry),
and no subprocess is spawned. -/
theorem c6_inprocess_shadows_external (parse : String → Option Json)
    (world : World) (processCwd : String) (svc : PluginServiceState)
    (n a : String) (p : Json) (P : Plugin) (desc : ExternalPluginDescriptor)
    (ext2 : List (String × ExternalPluginDescriptor))
    (hP : svc.plugins.lookup n = some P)
    (hex : svc.externals.lookup n = some desc) :
    execute parse world processCwd svc n a p =
      execute parse world processCwd ⟨svc.plugins, ext2⟩ n a p ∧
    (execute parse world processCwd svc n a p).spawns = [] := by
  constructor
  · unfold execute
    dsimp only
    rw [hP]
  · unfold execute
    dsimp only
    rw [hP]
    dsimp only
    split
    · rfl
    · split <;> rfl

/-- C6, witness: with "dup" registered in both origins, dropping the whole
external map does not change the outcome, and nothing is spawned. -/
theorem c6_witness :
    execute parseNone worldExit0 "/w" svcBoth "dup" "a" (.num 5) =
      execute parseNone worldExit0 "/w" ⟨svcBoth.plugins, []⟩ "dup" "a"
        (.num 5) ∧
    (execute parseNone worldExit0 "/w" svcBoth "dup" "a" (.num 5)).spawns =
      [] :=
  c6_inprocess_shadows_external parseNone worldExit0 "/w" svcBoth "dup" "a"
    (.num 5) dupPlugin dupDesc [] rfl rfl

/-- C7, counterexample: the `||` defaults follow JS falsiness, not mere
absence.  For the present but falsy payload `false`, the subprocess
argument is the serialization of the empty object, not the serialization
of the payload; and for a descriptor whose configured working directory is
present but the empty string, the subprocess runs in the current directory
of the caller ("/w"), not in the configured (empty-string) directory. -/
theorem c7_counterexample :
    (execute parseNone worldExit0 "/w" svcFx "fx" "go" (.bool false)).spawns.map
        SpawnCall.argv = [[stringify (.obj [])]] ∧
    (execute parseNone worldExit0 "/w" svcFx "fx" "go" (.bool false)).spawns.map
        SpawnCall.argv ≠ [[stringify (.bool false)]] ∧
    (execute parseNone worldExit0 "/w" svcFy "fy" "go" (.num 1)).spawns.map
        SpawnCall.cwd = ["/w"] ∧
    (execute parseNone worldExit0 "/w" svcFy "fy" "go" (.num 1)).spawns.map
        SpawnCall.cwd ≠ [""] := by
  refine ⟨rfl, by decide, rfl, by decide⟩

/-- C7, amended: every external invocation spawns exactly one subprocess,
with the command of the descriptor, argv equal to its args followed
by the JSON serialization of the payload — with the empty object
substituted whenever the payload is absent OR otherwise falsy (undefined,
null, false, 0, empty string) — working directory equal to the configured
directory of the descriptor when that is a present non-empty string and
otherwise the current directory of the caller, and shell interpretation
disabled. -/
theorem c7_amended (parse : String → Option Json) (world : World)
    (processCwd : String) (svc : PluginServiceState) (n a : String) (p : Json)
    (desc : ExternalPluginDescriptor)
    (hin : svc.plugins.lookup n = none)
    (hex : svc.externals.lookup n = some desc) :
    (execute parse world processCwd svc n a p).spawns =
      [⟨desc.command,
        desc.args.getD [] ++ [stringify (if jsTruthy p then p else .obj [])],
        match desc.cwd with
        | some c => if c = "" then processCwd else c
        | none => processCwd,
        false⟩] := by
  rw [execute_external_case parse world processCwd svc n a p desc hin hex]
  cases h : desc.cwd with
  | none => simp [spawnCall, jsOrElse, h]
  | some c => simp [spawnCall, jsOrElse, h]

/-- C7, witness: the "fx" descriptor with a null payload spawns "run" with
argv [serialized empty object], cwd "/srv", shell disabled. -/
theorem c7_amended_witness :
    (execute parseNone worldExit0 "/w" svcFx "fx" "go" .null).spawns =
      [⟨"run", [stringify (.obj [])], "/srv", false⟩] := by
  have h := c7_amended parseNone worldExit0 "/w" svcFx "fx" "go" .null descB
    rfl rfl
  simpa using h

/-- C8, counterexample: a manifest that IS valid JSON but violates the
descriptor shape (the array `[1, 2]` of numbers, which have no `name` or
`command` field) does NOT fail: `loadExternal` accepts it, writing two
entries keyed by `undefined` and emitting two `pluginLoaded(undefined)`
events. -/
theorem c8_counterexample :
    loadExternal jsonParseFx (some "[1,2]") =
      .ok ([(.undefined, .num 1), (.undefined, .num 2)],
        [⟨"pluginLoaded", [.undefined]⟩, ⟨"pluginLoaded", [.undefined]⟩]) ∧
    (loadExternal jsonParseFx (some "[1,2]")).isOk = true := by
  constructor <;> rfl

/-- C8, amended: when the manifest file exists but its text is not valid
JSON, external loading fails fatally with a parse error surfaced to the
caller (never skipped); the descriptor shape, however, is never
validated. -/
theorem c8_amended (parse : String → Option Json) (raw : String)
    (h : parse raw = none) :
    loadExternal parse (some raw) = .error .parseError := by
  simp [loadExternal, h]

/-- C8, witness: a manifest whose text parses to nothing fails loading. -/
theorem c8_amended_witness :
    loadExternal parseNone (some "not json") = .error .parseError :=
  c8_amended parseNone "not json" rfl

/-- C9, counterexample: an action of plugin "p" that calls
`ctx.emit("foo", 7)` and is invoked as action "foo" produces an event
trace of two IDENTICAL `pluginExecuted("p", "foo")` events — the
auxiliary event raised through the context is not distinct from the
lifecycle event of the dispatcher itself. -/
theorem c9_counterexample :
    (execute parseNone worldExit0 "/w" svcShout "p" "foo" .null).events =
      [executedEvent "p" "foo", executedEvent "p" "foo"] ∧
    ¬ (execute parseNone worldExit0 "/w" svcShout "p" "foo" .null).events.Nodup := by
  constructor
  · rfl
  · decide

/-- C9, amended: each `ctx.emit(eventName, data)` call an in-process
action makes raises a `pluginExecuted` event carrying
`(pluginName, eventName)` — the same event name and shape as the
lifecycle event of the dispatcher, not a distinct auxiliary event. -/
theorem c9_amended (parse : String → Option Json) (world : World)
    (processCwd : String) (svc : PluginServiceState) (n a : String) (p : Json)
    (P : Plugin) (fn : ActionFn)
    (hP : svc.plugins.lookup n = some P)
    (hfn : P.actions.lookup a = some fn) :
    (execute parse world processCwd svc n a p).events.take (fn p).1.length =
      (fn p).1.map (fun ed => executedEvent n ed.1) := by
  rw [execute_internal_case parse world processCwd svc n a p P fn hP hfn]
  have hl : ((fn p).1.map (fun ed => executedEvent n ed.1)).length =
      (fn p).1.length := List.length_map _ _
  cases (fn p).2 with
  | ok v =>
    dsimp only
    rw [← hl, List.take_left]
  | error m =>
    dsimp only
    rw [← hl, List.take_length]

/-- C9, witness for the amended theorem: the single context emission of
`shoutFn` appears as `pluginExecuted("p", "foo")`. -/
theorem c9_amended_witness :
    (execute parseNone worldExit0 "/w" svcShout "p" "foo" .null).events.take 1 =
      [executedEvent "p" "foo"] := by
  have h := c9_amended parseNone worldExit0 "/w" svcShout "p" "foo" .null
    shoutPlugin shoutFn rfl rfl
  simpa using h

/-- C10: the `data` argument of `ctx.emit(eventName, data)` is discarded:
two actions that emit the same event names with arbitrarily different data
and return the same result produce identical `execute` outcomes — the
trace delivered to event-bus listeners carries only the plugin name and
the event name, so no listener can observe the data. -/
theorem c10_emit_data_discarded (parse : String → Option Json) (world : World)
    (processCwd : String) (n a : String) (p : Json) (fn fn2 : ActionFn)
    (hres : (fn p).2 = (fn2 p).2)
    (hnames : (fn p).1.map Prod.fst = (fn2 p).1.map Prod.fst) :
    execute parse world processCwd (svcOf n a fn) n a p =
      execute parse world processCwd (svcOf n a fn2) n a p := by
  have h1 : (svcOf n a fn).plugins.lookup n = some ⟨n, [(a, fn)]⟩ := by
    simp [svcOf, List.lookup]
  have h2 : (Plugin.mk n [(a, fn)]).actions.lookup a = some fn := by
    simp [List.lookup]
  have h3 : (svcOf n a fn2).plugins.lookup n = some ⟨n, [(a, fn2)]⟩ := by
    simp [svcOf, List.lookup]
  have h4 : (Plugin.mk n [(a, fn2)]).actions.lookup a = some fn2 := by
    simp [List.lookup]
  rw [execute_internal_case parse world processCwd (svcOf n a fn) n a p _ fn
      h1 h2,
    execute_internal_case parse world processCwd (svcOf n a fn2) n a p _ fn2
      h3 h4]
  have hmap : (fn p).1.map (fun ed => executedEvent n ed.1) =
      (fn2 p).1.map (fun ed => executedEvent n ed.1) := by
    have hc := congrArg (List.map (fun s => executedEvent n s)) hnames
    simpa [List.map_map, Function.comp] using hc
  rw [hres, hmap]

/-- C10, witness: emitting ("x", 1) versus ("x", "secret") yields
identical observable outcomes. -/
theorem c10_witness :
    execute parseNone worldExit0 "/w" (svcOf "p" "a" leakFn1) "p" "a" .null =
      execute parseNone worldExit0 "/w" (svcOf "p" "a" leakFn2) "p" "a"
        .null :=
  c10_emit_data_discarded parseNone worldExit0 "/w" "p" "a" .null leakFn1
    leakFn2 rfl rfl

end PluginEngine
